import Mathlib

set_option autoImplicit false

/-!
Verification of the frame-lifecycle / shape-rendering core of the
`vulkan-winit` repository (files `src/util/vulkano/vulkano_utils.rs`,
`src/util/components/{shape,triangle,rectangle}.rs`).

Modelling conventions (shallow embedding of the Rust source):
* `f32` scalars are modelled by an abstract type `F` (with `[Add F]` where the
  source adds coordinates).  No claim depends on floating-point arithmetic,
  only on which symbolic expressions end up where.
* GPU handles (`Arc<DescriptorSet>`, `Subbuffer<[SimpleVertex]>`) are modelled
  as records carrying a fresh allocation id plus the data they were created
  from; the allocators are modelled as a `Nat` counter threaded through the
  code, incremented at every allocation.
* Rust panics (`unwrap` on `None` / indexing out of bounds) are modelled by
  `Option`: a result of `none` means the call panics.
* The environment (Vulkan driver / presentation engine) is modelled by
  explicit inputs: the image count returned by swapchain creation/recreation,
  the result of `acquire_next_image`, and the result of the
  submit/present/flush chain.
-/

namespace VulkanWinit

/-- Model of `SimpleVertex` (`position: [f32; 2]`). -/
structure SimpleVertex (F : Type) where
  position : F × F
deriving DecidableEq

/-- Model of `[f32; 4]` RGBA colors. -/
abbrev Color (F : Type) := F × F × F × F

/-- Model of the `Arc<DescriptorSet>` built in `Vulkan::initialize`:
`WriteDescriptorSet::buffer(0, color_buffer)` where the color buffer holds
`ColorUniform { input_color: element.get_color() }`.  `id` is the allocation
id of the underlying uniform buffer / descriptor set. -/
structure DescriptorSet (F : Type) where
  id : Nat
  input_color : Color F
deriving DecidableEq

/-- Model of `Subbuffer<[SimpleVertex]>`: the allocation id plus the vertex
data the buffer was created from (`Buffer::from_iter(..., vertices)`). -/
structure VertexBuffer (F : Type) where
  id : Nat
  data : List (SimpleVertex F)
deriving DecidableEq

/-- `Subbuffer::len` of a vertex buffer: the number of elements it holds. -/
def VertexBuffer.len {F : Type} (b : VertexBuffer F) : Nat := b.data.length

/-- Model of `Triangle` (`triangle.rs`). -/
structure Triangle (F : Type) where
  vertices : List (SimpleVertex F)
  color : Color F
  descriptor_set : Option (DescriptorSet F)
  vertex_buffer : Option (VertexBuffer F)
deriving DecidableEq

/-- Model of `Triangle::new`: stores the given vertex list unchanged (the
constructor does not inspect or enforce its length) and leaves both GPU
resources `None`. -/
def Triangle.new {F : Type} (vertices : List (SimpleVertex F)) (color : Color F) :
    Triangle F :=
  { vertices := vertices
    color := color
    descriptor_set := none
    vertex_buffer := none }

/-- Model of `Rectangle` (`rectangle.rs`). -/
structure Rectangle (F : Type) where
  vertices : List (SimpleVertex F)
  color : Color F
  descriptor_set : Option (DescriptorSet F)
  vertex_buffer : Option (VertexBuffer F)
deriving DecidableEq

/-- Model of `Rectangle::new`: expands `(x, y, width, height)` into the six
vertices of two triangles, in the exact order of the source, and leaves both
GPU resources `None`. -/
def Rectangle.new {F : Type} [Add F] (x y width height : F) (color : Color F) :
    Rectangle F :=
  { vertices :=
      [ -- First triangle (top-left, bottom-left, top-right)
        ⟨(x, y)⟩
      , ⟨(x, y + height)⟩
      , ⟨(x + width, y)⟩
        -- Second triangle (bottom-left, bottom-right, top-right)
      , ⟨(x, y + height)⟩
      , ⟨(x + width, y + height)⟩
      , ⟨(x + width, y)⟩ ]
    color := color
    descriptor_set := none
    vertex_buffer := none }

/-- Model of the `Shape` enum (`shape.rs`). -/
inductive Shape (F : Type) where
  | Triangle (t : Triangle F)
  | Rectangle (r : Rectangle F)
deriving DecidableEq

namespace Shape

variable {F : Type}

/-- Model of `Shape::new_triangle`. -/
def new_triangle (vertices : List (SimpleVertex F)) (color : Color F) : Shape F :=
  Shape.Triangle (Triangle.new vertices color)

/-- Model of `Shape::new_rectangle`. -/
def new_rectangle [Add F] (x y width height : F) (color : Color F) : Shape F :=
  Shape.Rectangle (Rectangle.new x y width height color)

/-- Model of `Shape::get_color`. -/
def get_color : Shape F → Color F
  | .Triangle t => t.color
  | .Rectangle r => r.color

/-- Model of `Shape::update_descriptor_set`. -/
def update_descriptor_set (s : Shape F) (descriptor_set : DescriptorSet F) : Shape F :=
  match s with
  | .Triangle t => .Triangle { t with descriptor_set := some descriptor_set }
  | .Rectangle r => .Rectangle { r with descriptor_set := some descriptor_set }

/-- Model of `Shape::get_descriptor_set`. -/
def get_descriptor_set : Shape F → Option (DescriptorSet F)
  | .Triangle t => t.descriptor_set
  | .Rectangle r => r.descriptor_set

/-- Model of `Shape::get_vertex_buffer`. -/
def get_vertex_buffer : Shape F → Option (VertexBuffer F)
  | .Triangle t => t.vertex_buffer
  | .Rectangle r => r.vertex_buffer

/-- Model of `Shape::update_vertex_buffer`. -/
def update_vertex_buffer (s : Shape F) (vertex_buffer : VertexBuffer F) : Shape F :=
  match s with
  | .Triangle t => .Triangle { t with vertex_buffer := some vertex_buffer }
  | .Rectangle r => .Rectangle { r with vertex_buffer := some vertex_buffer }

/-- Model of `Shape::get_vertices`. -/
def get_vertices : Shape F → List (SimpleVertex F)
  | .Triangle t => t.vertices
  | .Rectangle r => r.vertices

end Shape

/-- Commands recorded into a primary command buffer by `get_command_buffers`.
`beginRenderPass` carries the number of clear values, which the source sets to
`framebuffer.attachments().len()`; every framebuffer built by
`get_framebuffers` has exactly the two attachments
`[multisampled_image, swapchain image view]`, each cleared to the fixed color
`(0.1, 0.1, 0.1, 1.0)`. -/
inductive Command (F : Type) where
  | beginRenderPass (clear_values_count : Nat)
  | bindPipelineGraphics
  | bindDescriptorSets (first_set : Nat) (descriptor_set : DescriptorSet F)
  | bindVertexBuffers (first_binding : Nat) (vertex_buffer : VertexBuffer F)
  | draw (vertex_count instance_count first_vertex first_instance : Nat)
  | endRenderPass
deriving DecidableEq

/-- Model of `Arc<PrimaryAutoCommandBuffer>`: the recorded command list. -/
structure CommandBuffer (F : Type) where
  commands : List (Command F)
deriving DecidableEq

variable {F : Type}

/-- The body of the `for element in elements.iter_mut()` loop of
`get_command_buffers` for one element: if the element has no vertex buffer
yet, allocate one from the memory allocator (`Buffer::from_iter` over
`element.get_vertices()`) and attach it; then bind the descriptor set
(`.unwrap()`: `none` models the panic when it is absent), bind the vertex
buffer at binding 0 (also `.unwrap()`), and draw
`vertex_buffer.len()` vertices with 1 instance.  `alloc` is the allocator
counter; the result is the new counter, the updated element and the commands
recorded for it. -/
def recordShape (alloc : Nat) (e : Shape F) :
    Option (Nat × Shape F × List (Command F)) :=
  let (alloc1, e1) :=
    match e.get_vertex_buffer with
    | some _ => (alloc, e)
    | none => (alloc + 1, e.update_vertex_buffer ⟨alloc, e.get_vertices⟩)
  match e1.get_descriptor_set with
  | none => none
  | some ds =>
    match e1.get_vertex_buffer with
    | none => none
    | some vb =>
      some (alloc1, e1,
        [ Command.bindDescriptorSets 0 ds
        , Command.bindVertexBuffers 0 vb
        , Command.draw vb.len 1 0 0 ])

/-- The whole element loop of `get_command_buffers`, threading the allocator
counter and the mutated element vector through the elements in order. -/
def recordElements (alloc : Nat) (elements : List (Shape F)) :
    Option (Nat × List (Shape F) × List (Command F)) :=
  match elements with
  | [] => some (alloc, [], [])
  | e :: rest => do
    let (a1, e1, cmds1) ← recordShape alloc e
    let (a2, rest1, cmds2) ← recordElements a1 rest
    return (a2, e1 :: rest1, cmds1 ++ cmds2)

/-- One iteration of the `framebuffers.iter().map(...)` closure of
`get_command_buffers`: begin the render pass (two clear values, one per
framebuffer attachment), bind the graphics pipeline, record every element,
end the render pass. -/
def recordFramebuffer (alloc : Nat) (elements : List (Shape F)) :
    Option (Nat × List (Shape F) × CommandBuffer F) := do
  let (a1, es1, cmds) ← recordElements alloc elements
  return (a1, es1,
    ⟨Command.beginRenderPass 2 :: Command.bindPipelineGraphics ::
      (cmds ++ [Command.endRenderPass])⟩)

/-- Model of `get_command_buffers`: one command buffer per framebuffer.  The
framebuffers only contribute their count (`framebufferCount`, the swapchain
image count); `elements` is the by-value `Vec<Shape>` argument, mutated in
place across the framebuffer iterations (the closure borrows it mutably), so
the model returns the final allocator counter and element vector alongside
the command buffers. -/
def get_command_buffers (alloc : Nat) (framebufferCount : Nat)
    (elements : List (Shape F)) :
    Option (Nat × List (Shape F) × List (CommandBuffer F)) :=
  match framebufferCount with
  | 0 => some (alloc, elements, [])
  | n + 1 => do
    let (a1, es1, cb) ← recordFramebuffer alloc elements
    let (a2, es2, cbs) ← get_command_buffers a1 n es1
    return (a2, es2, cb :: cbs)

/-- The `for element in elements.iter_mut()` loop of `Vulkan::initialize`:
every element unconditionally gets a fresh uniform buffer holding its color
and a fresh descriptor set (`element.update_descriptor_set(descriptor_set)`),
before the first command-recording pass. -/
def attachDescriptorSets (alloc : Nat) (elements : List (Shape F)) :
    Nat × List (Shape F) :=
  match elements with
  | [] => (alloc, [])
  | e :: rest =>
    let e1 := e.update_descriptor_set ⟨alloc, e.get_color⟩
    let r := attachDescriptorSets (alloc + 1) rest
    (r.1, e1 :: r.2)

/-- Model of a `FenceFuture` handle. -/
structure Fence where
  id : Nat
deriving DecidableEq

/-- Result of `swapchain::acquire_next_image` as consumed by `redraw`:
either `Err(VulkanError::OutOfDate)`, or `Ok((image_i, suboptimal, ...))`.
Any other error panics in the source and is outside the model. -/
inductive AcquireResult where
  | outOfDate
  | ok (image_i : Nat) (suboptimal : Bool)
deriving DecidableEq

/-- Result of the `then_signal_fence_and_flush()` chain as consumed by
`redraw`'s commit match: success, `VulkanError::OutOfDate`, or any other
error (which is only logged). -/
inductive FlushResult where
  | ok
  | outOfDate
  | otherError (msg : String)
deriving DecidableEq

/-- Observable events of one `redraw` call, in program order. -/
inductive Event where
  | acquire (image_i : Nat)
  | waitFence (image_i : Nat) (f : Fence)
  | submit (image_i : Nat)
  | present (image_i : Nat)
  | log (msg : String)
deriving DecidableEq

/-- The mutable state of the `Vulkan` struct relevant to the claims.
`image_count` is the current swapchain's image count; `alloc` is the shared
allocator counter; the immutable device/queue/pipeline handles are omitted. -/
structure Vulkan (F : Type) where
  fences : List (Option Fence)
  previous_fence : Nat
  elements : List (Shape F)
  command_buffers : List (CommandBuffer F)
  image_count : Nat
  alloc : Nat
deriving DecidableEq

namespace Vulkan

/-- Model of `Vulkan::initialize` (state-relevant part).  `imageCount` is the
number of images returned by `create_swapchain` (the environment's choice,
at least 1 in Vulkan).  Descriptor sets are attached to every element, then
`get_command_buffers` runs on a clone of the element vector (so the vertex
buffers attached during recording are not stored back into `elements`), and
the fence array is `vec![None; images.len()]` with `previous_fence = 0`. -/
def init (elements : List (Shape F)) (imageCount : Nat) : Option (Vulkan F) := do
  let attached := attachDescriptorSets 0 elements
  let (a2, _elementsClone, cbs) ← get_command_buffers attached.1 imageCount attached.2
  return { fences := List.replicate imageCount none
           previous_fence := 0
           elements := attached.2
           command_buffers := cbs
           image_count := imageCount
           alloc := a2 }

/-- Model of `Vulkan::recreate_swapchain`.  `newImageCount` is the image
count of the swapchain returned by `self.swapchain.recreate(...)` (the
environment's choice).  The command buffers are rebuilt from a clone of
`self.elements` over the new framebuffers; `self.elements`, `self.fences`
and `self.previous_fence` are not touched. -/
def recreate_swapchain (s : Vulkan F) (newImageCount : Nat) : Option (Vulkan F) := do
  let (a1, _elementsClone, cbs) ← get_command_buffers s.alloc newImageCount s.elements
  return { s with command_buffers := cbs
                  image_count := newImageCount
                  alloc := a1 }

/-- Model of `Vulkan::redraw`.  The environment supplies the acquisition
result `acq`, the flush result `flush` and the fence handle `newFence`
created by a successful `then_signal_fence_and_flush`.  A result of `none`
models a panic (all three `self.fences[...]` / `self.command_buffers[...]`
indexings panic when out of bounds).  On `Err(OutOfDate)` from acquisition
the source returns `true` immediately, touching nothing.  The returned
`Bool` is `recreate_swapchain` (set by `suboptimal` and by an out-of-date
flush); the event list records waits/submits in program order. -/
def redraw (s : Vulkan F) (acq : AcquireResult) (flush : FlushResult)
    (newFence : Fence) : Option (Vulkan F × Bool × List Event) :=
  match acq with
  | .outOfDate => some (s, true, [])
  | .ok image_i suboptimal => do
    let recreate0 := suboptimal
    let slot ← s.fences[image_i]?
    let waitEvents :=
      match slot with
      | some f => [Event.waitFence image_i f]
      | none => []
    let _previousFuture ← s.fences[s.previous_fence]?
    let _commandBuffer ← s.command_buffers[image_i]?
    let (newSlot, recreate1, logEvents) :=
      match flush with
      | .ok => (some newFence, recreate0, ([] : List Event))
      | .outOfDate => (none, true, [])
      | .otherError msg => (none, recreate0, [Event.log ("failed to flush future: " ++ msg)])
    return ({ s with fences := s.fences.set image_i newSlot
                     previous_fence := image_i },
            recreate1,
            Event.acquire image_i :: waitEvents ++
              Event.submit image_i :: Event.present image_i :: logEvents)

/-- The structural invariant under which `redraw` never indexes out of
bounds: the fence array, the command-buffer vector and the swapchain's image
set all have the same size, and the stored previous-frame index is a valid
fence index. -/
def FenceInv (s : Vulkan F) : Prop :=
  s.fences.length = s.image_count ∧
  s.command_buffers.length = s.image_count ∧
  s.previous_fence < s.image_count

end Vulkan

/-! Helper notions used to state and prove the claims. -/

/-- The commands `recordShape` emits for an element that already carries both
GPU resources: bind its descriptor set at set 0, bind its vertex buffer at
binding 0, draw `len` vertices with 1 instance. -/
def shapeCommands (e : Shape F) : List (Command F) :=
  match e.get_descriptor_set, e.get_vertex_buffer with
  | some ds, some vb =>
    [ Command.bindDescriptorSets 0 ds
    , Command.bindVertexBuffers 0 vb
    , Command.draw vb.len 1 0 0 ]
  | _, _ => []

/-- Number of vertex-buffer allocations `recordShape` performs on `e`. -/
def allocCost (e : Shape F) : Nat :=
  match e.get_vertex_buffer with
  | some _ => 0
  | none => 1

/-- Total vertex-buffer allocations one element pass performs. -/
def elementsAlloc (es : List (Shape F)) : Nat := (es.map allocCost).sum

/-- The full command list of one command buffer over the element list `es`. -/
def framebufferCommands (es : List (Shape F)) : List (Command F) :=
  Command.beginRenderPass 2 :: Command.bindPipelineGraphics ::
    ((es.map shapeCommands).flatten ++ [Command.endRenderPass])

/-- How one element pass relates an input element to its output element:
the descriptor set, vertices and color are untouched; the output has a
vertex buffer; an element that already had one is returned unchanged; an
element without one gets a buffer holding exactly its vertex list. -/
def RecordRel (e e1 : Shape F) : Prop :=
  e1.get_descriptor_set = e.get_descriptor_set ∧
  e1.get_vertices = e.get_vertices ∧
  e1.get_color = e.get_color ∧
  e1.get_vertex_buffer.isSome ∧
  (∀ b, e.get_vertex_buffer = some b → e1 = e) ∧
  (e.get_vertex_buffer = none →
    ∃ i, e1 = e.update_vertex_buffer ⟨i, e.get_vertices⟩)

end VulkanWinit

namespace VulkanWinit

variable {F : Type}

/-! Projection lemmas for the two shape mutators. -/

namespace Shape

@[simp] theorem get_descriptor_set_update_vertex_buffer (s : Shape F) (b : VertexBuffer F) :
    (s.update_vertex_buffer b).get_descriptor_set = s.get_descriptor_set := by
  cases s <;> rfl

@[simp] theorem get_vertex_buffer_update_vertex_buffer (s : Shape F) (b : VertexBuffer F) :
    (s.update_vertex_buffer b).get_vertex_buffer = some b := by
  cases s <;> rfl

@[simp] theorem get_vertices_update_vertex_buffer (s : Shape F) (b : VertexBuffer F) :
    (s.update_vertex_buffer b).get_vertices = s.get_vertices := by
  cases s <;> rfl

@[simp] theorem get_color_update_vertex_buffer (s : Shape F) (b : VertexBuffer F) :
    (s.update_vertex_buffer b).get_color = s.get_color := by
  cases s <;> rfl

@[simp] theorem get_descriptor_set_update_descriptor_set (s : Shape F) (d : DescriptorSet F) :
    (s.update_descriptor_set d).get_descriptor_set = some d := by
  cases s <;> rfl

@[simp] theorem get_vertex_buffer_update_descriptor_set (s : Shape F) (d : DescriptorSet F) :
    (s.update_descriptor_set d).get_vertex_buffer = s.get_vertex_buffer := by
  cases s <;> rfl

@[simp] theorem get_vertices_update_descriptor_set (s : Shape F) (d : DescriptorSet F) :
    (s.update_descriptor_set d).get_vertices = s.get_vertices := by
  cases s <;> rfl

@[simp] theorem get_color_update_descriptor_set (s : Shape F) (d : DescriptorSet F) :
    (s.update_descriptor_set d).get_color = s.get_color := by
  cases s <;> rfl

end Shape

/-! Characterization of one element's processing by the recording loop. -/

theorem recordShape_of_none_ds (alloc : Nat) (e : Shape F)
    (h : e.get_descriptor_set = none) : recordShape alloc e = none := by
  cases hvb : e.get_vertex_buffer <;> simp [recordShape, hvb, h]

theorem recordShape_some_vb (alloc : Nat) (e : Shape F) (ds : DescriptorSet F)
    (vb : VertexBuffer F) (hds : e.get_descriptor_set = some ds)
    (hvb : e.get_vertex_buffer = some vb) :
    recordShape alloc e = some (alloc, e,
      [ Command.bindDescriptorSets 0 ds
      , Command.bindVertexBuffers 0 vb
      , Command.draw vb.len 1 0 0 ]) := by
  simp [recordShape, hds, hvb]

theorem recordShape_none_vb (alloc : Nat) (e : Shape F) (ds : DescriptorSet F)
    (hds : e.get_descriptor_set = some ds) (hvb : e.get_vertex_buffer = none) :
    recordShape alloc e =
      some (alloc + 1, e.update_vertex_buffer ⟨alloc, e.get_vertices⟩,
        [ Command.bindDescriptorSets 0 ds
        , Command.bindVertexBuffers 0 ⟨alloc, e.get_vertices⟩
        , Command.draw (VertexBuffer.len ⟨alloc, e.get_vertices⟩) 1 0 0 ]) := by
  simp [recordShape, hds, hvb]

theorem shapeCommands_eq (e : Shape F) (ds : DescriptorSet F) (vb : VertexBuffer F)
    (hds : e.get_descriptor_set = some ds) (hvb : e.get_vertex_buffer = some vb) :
    shapeCommands e =
      [ Command.bindDescriptorSets 0 ds
      , Command.bindVertexBuffers 0 vb
      , Command.draw vb.len 1 0 0 ] := by
  simp [shapeCommands, hds, hvb]

theorem recordShape_char (alloc : Nat) (e : Shape F)
    (hds : e.get_descriptor_set.isSome) :
    ∃ e1, recordShape alloc e = some (alloc + allocCost e, e1, shapeCommands e1) ∧
      RecordRel e e1 := by
  obtain ⟨ds, hd⟩ := Option.isSome_iff_exists.mp hds
  cases hvb : e.get_vertex_buffer with
  | some vb =>
    refine ⟨e, ?_, ?_⟩
    · rw [recordShape_some_vb alloc e ds vb hd hvb, shapeCommands_eq e ds vb hd hvb]
      simp [allocCost, hvb]
    · refine ⟨rfl, rfl, rfl, by simp [hvb], fun b _ => rfl, ?_⟩
      intro h
      rw [h] at hvb
      cases hvb
  | none =>
    refine ⟨e.update_vertex_buffer ⟨alloc, e.get_vertices⟩, ?_, ?_⟩
    · rw [recordShape_none_vb alloc e ds hd hvb,
        shapeCommands_eq _ ds ⟨alloc, e.get_vertices⟩ (by simp [hd]) (by simp)]
      simp [allocCost, hvb]
    · refine ⟨by simp, by simp, by simp, by simp, ?_, fun _ => ⟨alloc, rfl⟩⟩
      intro b hb
      rw [hb] at hvb
      cases hvb

/-! Characterization of the whole element loop and of `get_command_buffers`. -/

theorem recordElements_char (alloc : Nat) (es : List (Shape F))
    (hds : ∀ e ∈ es, e.get_descriptor_set.isSome) :
    ∃ es1, recordElements alloc es =
        some (alloc + elementsAlloc es, es1, (es1.map shapeCommands).flatten) ∧
      List.Forall₂ RecordRel es es1 := by
  induction es generalizing alloc with
  | nil => exact ⟨[], by simp [recordElements, elementsAlloc], List.Forall₂.nil⟩
  | cons e rest ih =>
    obtain ⟨e1, he, hrel⟩ := recordShape_char alloc e (hds e (by simp))
    obtain ⟨rest1, hr, hrrel⟩ :=
      ih (alloc + allocCost e) (fun x hx => hds x (by simp [hx]))
    refine ⟨e1 :: rest1, ?_, List.Forall₂.cons hrel hrrel⟩
    have harith : alloc + allocCost e + elementsAlloc rest =
        alloc + elementsAlloc (e :: rest) := by
      simp [elementsAlloc]
      omega
    simp [recordElements, he, hr, harith]

theorem recordElements_of_none_ds (alloc : Nat) (es : List (Shape F))
    (h : ∃ e ∈ es, e.get_descriptor_set = none) :
    recordElements alloc es = none := by
  induction es generalizing alloc with
  | nil => simp at h
  | cons e rest ih =>
    obtain ⟨x, hx, hxds⟩ := h
    rcases List.mem_cons.mp hx with rfl | hx
    · simp [recordElements, recordShape_of_none_ds alloc x hxds]
    · cases he : recordShape alloc e with
      | none => simp [recordElements, he]
      | some v => simp [recordElements, he, ih v.1 ⟨x, hx, hxds⟩]

theorem recordElements_of_materialized (alloc : Nat) (es : List (Shape F))
    (hds : ∀ e ∈ es, e.get_descriptor_set.isSome)
    (hvb : ∀ e ∈ es, e.get_vertex_buffer.isSome) :
    recordElements alloc es = some (alloc, es, (es.map shapeCommands).flatten) := by
  induction es generalizing alloc with
  | nil => simp [recordElements]
  | cons e rest ih =>
    obtain ⟨ds, hd⟩ := Option.isSome_iff_exists.mp (hds e (by simp))
    obtain ⟨vb, hv⟩ := Option.isSome_iff_exists.mp (hvb e (by simp))
    simp [recordElements, recordShape_some_vb alloc e ds vb hd hv,
      ih alloc (fun x hx => hds x (by simp [hx])) (fun x hx => hvb x (by simp [hx])),
      shapeCommands_eq e ds vb hd hv]

theorem forall₂_record_isSome {es es1 : List (Shape F)}
    (h : List.Forall₂ RecordRel es es1)
    (hds : ∀ e ∈ es, e.get_descriptor_set.isSome) :
    (∀ e1 ∈ es1, e1.get_descriptor_set.isSome) ∧
      (∀ e1 ∈ es1, e1.get_vertex_buffer.isSome) := by
  induction h with
  | nil => simp
  | @cons e e1 rest rest1 hre hrest ih =>
    have hds1 : ∀ x ∈ rest, x.get_descriptor_set.isSome :=
      fun x hx => hds x (by simp [hx])
    refine ⟨?_, ?_⟩
    · intro x hx
      rcases List.mem_cons.mp hx with rfl | hx
      · rw [hre.1]
        exact hds e (by simp)
      · exact (ih hds1).1 x hx
    · intro x hx
      rcases List.mem_cons.mp hx with rfl | hx
      · exact hre.2.2.2.1
      · exact (ih hds1).2 x hx

theorem recordFramebuffer_char (alloc : Nat) (es : List (Shape F))
    (hds : ∀ e ∈ es, e.get_descriptor_set.isSome) :
    ∃ es1, recordFramebuffer alloc es =
        some (alloc + elementsAlloc es, es1, ⟨framebufferCommands es1⟩) ∧
      List.Forall₂ RecordRel es es1 := by
  obtain ⟨es1, he, hrel⟩ := recordElements_char alloc es hds
  exact ⟨es1, by simp [recordFramebuffer, he, framebufferCommands], hrel⟩

theorem get_command_buffers_zero (alloc : Nat) (es : List (Shape F)) :
    get_command_buffers alloc 0 es = some (alloc, es, []) := rfl

theorem get_command_buffers_of_materialized (alloc : Nat) (n : Nat)
    (es : List (Shape F)) (hds : ∀ e ∈ es, e.get_descriptor_set.isSome)
    (hvb : ∀ e ∈ es, e.get_vertex_buffer.isSome) :
    get_command_buffers alloc n es =
      some (alloc, es, List.replicate n ⟨framebufferCommands es⟩) := by
  induction n generalizing alloc with
  | zero => simp [get_command_buffers]
  | succ n ih =>
    simp [get_command_buffers, recordFramebuffer,
      recordElements_of_materialized alloc es hds hvb, ih,
      framebufferCommands, List.replicate_succ]

theorem get_command_buffers_char (alloc : Nat) (n : Nat) (es : List (Shape F))
    (hds : ∀ e ∈ es, e.get_descriptor_set.isSome) (hn : 1 ≤ n) :
    ∃ es1, get_command_buffers alloc n es =
        some (alloc + elementsAlloc es, es1,
          List.replicate n ⟨framebufferCommands es1⟩) ∧
      List.Forall₂ RecordRel es es1 := by
  obtain ⟨m, rfl⟩ : ∃ m, n = m + 1 := ⟨n - 1, by omega⟩
  obtain ⟨es1, hfb, hrel⟩ := recordFramebuffer_char alloc es hds
  obtain ⟨h1, h2⟩ := forall₂_record_isSome hrel hds
  refine ⟨es1, ?_, hrel⟩
  simp [get_command_buffers, hfb,
    get_command_buffers_of_materialized (alloc + elementsAlloc es) m es1 h1 h2,
    List.replicate_succ]

theorem get_command_buffers_of_none_ds (alloc : Nat) (n : Nat)
    (es : List (Shape F)) (h : ∃ e ∈ es, e.get_descriptor_set = none)
    (hn : 1 ≤ n) : get_command_buffers alloc n es = none := by
  obtain ⟨m, rfl⟩ : ∃ m, n = m + 1 := ⟨n - 1, by omega⟩
  simp [get_command_buffers, recordFramebuffer,
    recordElements_of_none_ds alloc es h]

theorem attachDescriptorSets_all_ds (alloc : Nat) (es : List (Shape F)) :
    ∀ e1 ∈ (attachDescriptorSets alloc es).2, e1.get_descriptor_set.isSome := by
  induction es generalizing alloc with
  | nil => simp [attachDescriptorSets]
  | cons e rest ih =>
    intro e1 h1
    rcases List.mem_cons.mp h1 with rfl | h1
    · simp
    · exact ih (alloc + 1) e1 h1

/-! Characterization of `redraw` on a successful acquisition, and of
`init`. -/

theorem Vulkan.redraw_ok_eq (s : Vulkan F) (i : Nat) (sub : Bool)
    (flush : FlushResult) (nf : Fence)
    (h1 : i < s.fences.length) (h2 : s.previous_fence < s.fences.length)
    (h3 : i < s.command_buffers.length) :
    s.redraw (.ok i sub) flush nf = some
      ({ s with
          fences := s.fences.set i
            (match flush with | .ok => some nf | _ => none)
          previous_fence := i },
        (match flush with | .outOfDate => true | _ => sub),
        Event.acquire i ::
          (match s.fences[i] with
            | some f => [Event.waitFence i f]
            | none => []) ++
          Event.submit i :: Event.present i ::
            (match flush with
              | .otherError msg =>
                  [Event.log ("failed to flush future: " ++ msg)]
              | _ => [])) := by
  simp only [Vulkan.redraw]
  rw [List.getElem?_eq_getElem h1, List.getElem?_eq_getElem h2,
    List.getElem?_eq_getElem h3]
  cases hslot : s.fences[i] <;> cases flush <;> simp [hslot]

theorem Vulkan.init_char (elements : List (Shape F)) (n : Nat) (hn : 1 ≤ n) :
    ∃ es1 : List (Shape F), Vulkan.init elements n = some
      { fences := List.replicate n none
        previous_fence := 0
        elements := (attachDescriptorSets 0 elements).2
        command_buffers := List.replicate n ⟨framebufferCommands es1⟩
        image_count := n
        alloc := (attachDescriptorSets 0 elements).1 +
          elementsAlloc (attachDescriptorSets 0 elements).2 } := by
  obtain ⟨es1, hgcb, -⟩ := get_command_buffers_char
    (attachDescriptorSets 0 elements).1 n (attachDescriptorSets 0 elements).2
    (attachDescriptorSets_all_ds 0 elements) hn
  exact ⟨es1, by simp [Vulkan.init, hgcb]⟩

/-! What a successful recording run implies, with no assumption on the
input elements. -/

theorem recordShape_some_char (alloc : Nat) (e : Shape F)
    (w : Nat × Shape F × List (Command F)) (h : recordShape alloc e = some w) :
    w.1 = alloc + allocCost e ∧ w.2.2 = shapeCommands w.2.1 ∧
      w.2.1.get_descriptor_set.isSome ∧ RecordRel e w.2.1 := by
  cases hds : e.get_descriptor_set with
  | none => rw [recordShape_of_none_ds alloc e hds] at h; cases h
  | some ds =>
    obtain ⟨e1, he, hrel⟩ := recordShape_char alloc e (by simp [hds])
    rw [he] at h
    cases h
    exact ⟨rfl, rfl, by rw [hrel.1, hds]; rfl, hrel⟩

theorem recordElements_some_char (alloc : Nat) (es : List (Shape F))
    (v : Nat × List (Shape F) × List (Command F))
    (h : recordElements alloc es = some v) :
    v.1 = alloc + elementsAlloc es ∧
      v.2.2 = (v.2.1.map shapeCommands).flatten ∧
      (∀ x ∈ v.2.1, x.get_descriptor_set.isSome ∧ x.get_vertex_buffer.isSome) ∧
      List.Forall₂ RecordRel es v.2.1 := by
  induction es generalizing alloc v with
  | nil =>
    rw [recordElements] at h
    cases h
    exact ⟨by simp [elementsAlloc], rfl, by simp, List.Forall₂.nil⟩
  | cons e rest ih =>
    cases he : recordShape alloc e with
    | none => rw [recordElements] at h; rw [he] at h; cases h
    | some w =>
      cases hr : recordElements w.1 rest with
      | none =>
        rw [recordElements] at h
        rw [he] at h
        simp only [Option.bind_eq_bind, Option.some_bind] at h
        rw [hr] at h
        cases h
      | some u =>
        obtain ⟨hw1, hw2, hwds, hwrel⟩ := recordShape_some_char alloc e w he
        obtain ⟨hu1, hu2, hums, hurel⟩ := ih w.1 u hr
        have hv : v = (u.1, w.2.1 :: u.2.1, w.2.2 ++ u.2.2) := by
          rw [recordElements] at h
          rw [he] at h
          simp only [Option.bind_eq_bind, Option.some_bind] at h
          rw [hr] at h
          simp only [Option.some_bind] at h
          cases h
          rfl
        subst hv
        refine ⟨?_, ?_, ?_, List.Forall₂.cons hwrel hurel⟩
        · rw [hu1, hw1]
          simp [elementsAlloc]
          omega
        · simp [hw2, hu2]
        · intro x hx
          rcases List.mem_cons.mp hx with rfl | hx
          · exact ⟨hwds, hwrel.2.2.2.1⟩
          · exact hums x hx

theorem recordFramebuffer_some_char (alloc : Nat) (es : List (Shape F))
    (w : Nat × List (Shape F) × CommandBuffer F)
    (h : recordFramebuffer alloc es = some w) :
    w.1 = alloc + elementsAlloc es ∧
      (∀ x ∈ w.2.1, x.get_descriptor_set.isSome ∧ x.get_vertex_buffer.isSome) ∧
      List.Forall₂ RecordRel es w.2.1 ∧
      w.2.2 = ⟨framebufferCommands w.2.1⟩ := by
  cases hre : recordElements alloc es with
  | none => rw [recordFramebuffer, hre] at h; cases h
  | some u =>
    obtain ⟨h1, h2, h3, h4⟩ := recordElements_some_char alloc es u hre
    rw [recordFramebuffer, hre] at h
    simp only [Option.pure_def, Option.bind_eq_bind, Option.some_bind] at h
    cases h
    exact ⟨h1, h3, h4, by simp [framebufferCommands, h2]⟩

theorem get_command_buffers_succ_alloc (alloc n : Nat) (es : List (Shape F))
    (v : Nat × List (Shape F) × List (CommandBuffer F))
    (h : get_command_buffers alloc (n + 1) es = some v) :
    v.1 = alloc + elementsAlloc es := by
  cases hfb : recordFramebuffer alloc es with
  | none =>
    simp only [get_command_buffers, hfb, Option.bind_eq_bind, Option.none_bind] at h
    cases h
  | some w =>
    obtain ⟨hw1, hwm, -, -⟩ := recordFramebuffer_some_char alloc es w hfb
    simp only [get_command_buffers, hfb, Option.pure_def, Option.bind_eq_bind,
      Option.some_bind] at h
    rw [get_command_buffers_of_materialized w.1 n w.2.1
      (fun x hx => (hwm x hx).1) (fun x hx => (hwm x hx).2)] at h
    simp only [Option.some_bind] at h
    cases h
    exact hw1

/-! Claim theorems about the shape constructors. -/

/-- C8: constructing a rectangle from `(x, y, width, height, color)` yields
exactly the six vertices `(x,y)`, `(x,y+height)`, `(x+width,y)`,
`(x,y+height)`, `(x+width,y+height)`, `(x+width,y)` in this order — the two
triangles top-left/bottom-left/top-right and
bottom-left/bottom-right/top-right — and leaves both GPU resources empty. -/
theorem C8_rectangle_new [Add F] (x y width height : F) (color : Color F) :
    (Shape.new_rectangle x y width height color).get_vertices =
      [ ⟨(x, y)⟩, ⟨(x, y + height)⟩, ⟨(x + width, y)⟩,
        ⟨(x, y + height)⟩, ⟨(x + width, y + height)⟩, ⟨(x + width, y)⟩ ] ∧
    (Shape.new_rectangle x y width height color).get_descriptor_set = none ∧
    (Shape.new_rectangle x y width height color).get_vertex_buffer = none :=
  ⟨rfl, rfl, rfl⟩

/-- C9 counterexample: `Shape::new_triangle` stores whatever vertex list it
is given — nothing enforces the count 3.  A "triangle" built from four
vertices does not have exactly 3 vertices, refuting the claim as stated. -/
theorem C9_counterexample :
    ¬ (Shape.new_triangle
        [⟨(0, 0)⟩, ⟨(0, 1)⟩, ⟨(1, 0)⟩, ⟨(1, 1)⟩]
        ((0 : Nat), 0, 0, 0)).get_vertices.length = 3 := by
  decide

/-- C9 amended: every shape constructed as a rectangle has exactly 6
vertices; a shape constructed as a triangle has exactly the vertices passed
to the constructor (the constructor does not enforce the count 3; the
program's own call sites pass 3). -/
theorem C9_vertex_count [Add F] (vertices : List (SimpleVertex F))
    (color : Color F) (x y width height : F) :
    (Shape.new_triangle vertices color).get_vertices.length = vertices.length ∧
    (Shape.new_rectangle x y width height color).get_vertices.length = 6 :=
  ⟨rfl, rfl⟩

/-! Claim theorems about the frame scheduler. -/

/-- C1 counterexample: the fence-slot array does not track the swapchain
image count across `recreate_swapchain`.  Initializing with a 1-image
swapchain and then recreating while the driver returns a 2-image swapchain
leaves the fence array at 1 entry while the current image count is 2: the
code never resizes `self.fences`. -/
theorem C1_counterexample :
    (((Vulkan.init ([] : List (Shape Nat)) 1).bind
        (fun s => s.recreate_swapchain 2)).map
      (fun s => s.fences.length == s.image_count)) = some false := by
  decide

/-- C1 amended: after `initialize` with an N-image swapchain (N ≥ 1) the
fence array has exactly N entries and the scheduler invariant `FenceInv`
holds; `recreate_swapchain` leaves the fence array and the previous-frame
index unchanged (it does not resize them to the new image count); and under
`FenceInv` — in particular whenever every recreate preserved the image
count — a `redraw` whose acquired index is a valid image index of the
current swapchain performs all its fence-array indexings inside
`[0, fences.length)` (so it does not panic) and preserves the invariant and
the fence-array length. -/
theorem C1_fence_slots :
    (∀ (es : List (Shape F)) (n : Nat) (s : Vulkan F), 1 ≤ n →
        Vulkan.init es n = some s → s.fences.length = n ∧ s.FenceInv) ∧
    (∀ (s s' : Vulkan F) (m : Nat), s.recreate_swapchain m = some s' →
        s'.fences = s.fences ∧ s'.previous_fence = s.previous_fence) ∧
    (∀ (s : Vulkan F) (i : Nat) (sub : Bool) (flush : FlushResult) (nf : Fence),
        s.FenceInv → i < s.image_count →
        ∃ s' r tr, s.redraw (.ok i sub) flush nf = some (s', r, tr) ∧
          s'.FenceInv ∧ s'.fences.length = s.fences.length) := by
  refine ⟨?_, ?_, ?_⟩
  · intro es n s hn hs
    obtain ⟨es1, hinit⟩ := Vulkan.init_char es n hn
    rw [hinit] at hs
    cases hs
    refine ⟨by simp, by simp [Vulkan.FenceInv], by simp [Vulkan.FenceInv], hn⟩
  · intro s s' m h
    rw [Vulkan.recreate_swapchain] at h
    cases hg : get_command_buffers s.alloc m s.elements with
    | none => rw [hg] at h; cases h
    | some v =>
      rw [hg] at h
      simp only [Option.pure_def, Option.bind_eq_bind, Option.some_bind] at h
      cases h
      exact ⟨rfl, rfl⟩
  · intro s i sub flush nf hinv hi
    obtain ⟨hlen, hcb, hprev⟩ := hinv
    have h1 : i < s.fences.length := by omega
    have h2 : s.previous_fence < s.fences.length := by omega
    have h3 : i < s.command_buffers.length := by omega
    refine ⟨_, _, _, Vulkan.redraw_ok_eq s i sub flush nf h1 h2 h3, ?_, by simp⟩
    refine ⟨by simp [hlen], by simpa using hcb, by simpa using hi⟩

/-- C1 amended, witness: instantiated on the empty shape list with a
1-image swapchain (and a recreate that keeps the image count at 1). -/
theorem C1_fence_slots_witness :
    ((⟨[none], 0, [], [⟨[Command.beginRenderPass 2, Command.bindPipelineGraphics,
          Command.endRenderPass]⟩], 1, 0⟩ : Vulkan Nat).fences.length = 1 ∧
      (⟨[none], 0, [], [⟨[Command.beginRenderPass 2, Command.bindPipelineGraphics,
          Command.endRenderPass]⟩], 1, 0⟩ : Vulkan Nat).FenceInv) ∧
    ((⟨[none], 0, [], [⟨[Command.beginRenderPass 2, Command.bindPipelineGraphics,
          Command.endRenderPass]⟩], 1, 0⟩ : Vulkan Nat).fences = [none] ∧
      (0 : Nat) = 0) ∧
    (∃ s' r tr,
      (⟨[none], 0, [], [⟨[Command.beginRenderPass 2, Command.bindPipelineGraphics,
          Command.endRenderPass]⟩], 1, 0⟩ : Vulkan Nat).redraw
        (.ok 0 false) .ok ⟨0⟩ = some (s', r, tr) ∧
        s'.FenceInv ∧ s'.fences.length =
          (⟨[none], 0, [], [⟨[Command.beginRenderPass 2, Command.bindPipelineGraphics,
              Command.endRenderPass]⟩], 1, 0⟩ : Vulkan Nat).fences.length) := by
  refine ⟨(C1_fence_slots (F := Nat)).1 [] 1
      ⟨[none], 0, [], [⟨[Command.beginRenderPass 2, Command.bindPipelineGraphics,
        Command.endRenderPass]⟩], 1, 0⟩ (by decide) (by decide), ?_, ?_⟩
  · exact ((C1_fence_slots (F := Nat)).2.1
      ⟨[none], 0, [], [⟨[Command.beginRenderPass 2, Command.bindPipelineGraphics,
        Command.endRenderPass]⟩], 1, 0⟩
      ⟨[none], 0, [], [⟨[Command.beginRenderPass 2, Command.bindPipelineGraphics,
        Command.endRenderPass]⟩], 1, 0⟩ 1 (by decide))
  · exact (C1_fence_slots (F := Nat)).2.2
      ⟨[none], 0, [], [⟨[Command.beginRenderPass 2, Command.bindPipelineGraphics,
        Command.endRenderPass]⟩], 1, 0⟩ 0 false .ok ⟨0⟩
      ⟨by decide, by decide, by decide⟩ (by decide)

/-- C2: whenever the acquired image's fence slot is occupied (fence `f`),
`redraw` waits on exactly that fence before submitting that image's command
buffer: its event trace is
`acquire i, waitFence i f, submit i, present i, ...` — the wait (which
blocks until the fence signals, `image_fence.wait(None)`) strictly precedes
the submission targeting image `i`. -/
theorem C2_drain_blocks_before_submit (s : Vulkan F) (i : Nat) (sub : Bool)
    (flush : FlushResult) (nf f : Fence)
    (hocc : s.fences[i]? = some (some f))
    (h2 : s.previous_fence < s.fences.length)
    (h3 : i < s.command_buffers.length) :
    ∃ s' r rest, s.redraw (.ok i sub) flush nf =
      some (s', r, Event.acquire i :: Event.waitFence i f ::
        Event.submit i :: Event.present i :: rest) := by
  have h1 : i < s.fences.length := by
    by_contra h
    rw [List.getElem?_eq_none (by omega)] at hocc
    cases hocc
  have hslot : s.fences[i] = some f := by
    have := List.getElem?_eq_getElem h1
    rw [this] at hocc
    exact Option.some.inj hocc
  have heq := Vulkan.redraw_ok_eq s i sub flush nf h1 h2 h3
  rw [hslot] at heq
  exact ⟨_, _, _, heq⟩

/-- C2 witness: a 1-image state whose only fence slot holds fence 7. -/
theorem C2_drain_blocks_before_submit_witness :
    ∃ s' r rest,
      (⟨[some ⟨7⟩], 0, [], [⟨[Command.beginRenderPass 2,
          Command.bindPipelineGraphics, Command.endRenderPass]⟩], 1, 0⟩ :
        Vulkan Nat).redraw (.ok 0 false) .ok ⟨9⟩ =
      some (s', r, Event.acquire 0 :: Event.waitFence 0 ⟨7⟩ ::
        Event.submit 0 :: Event.present 0 :: rest) :=
  C2_drain_blocks_before_submit
    ⟨[some ⟨7⟩], 0, [], [⟨[Command.beginRenderPass 2,
      Command.bindPipelineGraphics, Command.endRenderPass]⟩], 1, 0⟩
    0 false .ok ⟨9⟩ ⟨7⟩ (by decide) (by decide) (by decide)

/-- C3: if image acquisition reports out of date, `redraw` returns `true`
("must recreate") immediately with the state — every fence slot and the
previous-frame index — unchanged, and an empty event trace (no fence is
waited on, no submission or present happens, no slot is written). -/
theorem C3_acquire_out_of_date (s : Vulkan F) (flush : FlushResult)
    (nf : Fence) : s.redraw .outOfDate flush nf = some (s, true, []) := rfl

/-- C4: the commit stage of `redraw`.  In all three flush outcomes the
previous-frame index becomes the acquired image's index.  On success the new
fence is stored in the acquired image's slot; if the submit/present chain
reports out of date the slot is cleared and the call reports "must
recreate"; on any other submission failure the slot is cleared, the failure
is logged into the trace, the recreate flag is unchanged (just the
suboptimal bit), and the call still returns (`some`): it does not terminate
the process. -/
theorem C4_commit_stage (s : Vulkan F) (i : Nat) (sub : Bool)
    (flush : FlushResult) (nf : Fence)
    (h1 : i < s.fences.length) (h2 : s.previous_fence < s.fences.length)
    (h3 : i < s.command_buffers.length) :
    ∃ s' r tr, s.redraw (.ok i sub) flush nf = some (s', r, tr) ∧
      s'.previous_fence = i ∧
      (flush = .ok → s'.fences = s.fences.set i (some nf) ∧ r = sub) ∧
      (flush = .outOfDate → s'.fences = s.fences.set i none ∧ r = true) ∧
      (∀ msg, flush = .otherError msg →
        s'.fences = s.fences.set i none ∧ r = sub ∧
          Event.log ("failed to flush future: " ++ msg) ∈ tr) := by
  refine ⟨_, _, _, Vulkan.redraw_ok_eq s i sub flush nf h1 h2 h3,
    rfl, ?_, ?_, ?_⟩
  · rintro rfl
    exact ⟨rfl, rfl⟩
  · rintro rfl
    exact ⟨rfl, rfl⟩
  · rintro msg rfl
    refine ⟨rfl, rfl, ?_⟩
    cases s.fences[i] <;> simp

/-- C4 witness: commit on a 1-image state, exercising the success case. -/
theorem C4_commit_stage_witness :
    ∃ s' r tr,
      (⟨[none], 0, [], [⟨[Command.beginRenderPass 2,
          Command.bindPipelineGraphics, Command.endRenderPass]⟩], 1, 0⟩ :
        Vulkan Nat).redraw (.ok 0 true) .ok ⟨3⟩ = some (s', r, tr) ∧
      s'.previous_fence = 0 ∧
      (FlushResult.ok = FlushResult.ok →
        s'.fences = ([none] : List (Option Fence)).set 0 (some ⟨3⟩) ∧ r = true) ∧
      (FlushResult.ok = FlushResult.outOfDate →
        s'.fences = ([none] : List (Option Fence)).set 0 none ∧ r = true) ∧
      (∀ msg, FlushResult.ok = FlushResult.otherError msg →
        s'.fences = ([none] : List (Option Fence)).set 0 none ∧ r = true ∧
          Event.log ("failed to flush future: " ++ msg) ∈ tr) :=
  C4_commit_stage
    ⟨[none], 0, [], [⟨[Command.beginRenderPass 2,
      Command.bindPipelineGraphics, Command.endRenderPass]⟩], 1, 0⟩
    0 true .ok ⟨3⟩ (by decide) (by decide) (by decide)

/-! Claim theorems about the shape-resource lifecycle and command
recording. -/

/-- C5 counterexample: the claim's "both resources are first populated
lazily during the first command-recording pass (they are empty before any
recording)" is false for the binding: `Vulkan::initialize` attaches a
descriptor set to every element before the first recording pass (its
element loop runs before `get_command_buffers`; `Vulkan.init` feeds
`(attachDescriptorSets 0 elements).2` to the recording pass).  For a
concrete one-triangle list, the element list the first recording pass
receives is not empty of bindings. -/
theorem C5_counterexample :
    ((attachDescriptorSets 0
        [Shape.new_triangle ([] : List (SimpleVertex Nat)) (0, 0, 0, 0)]).2.all
      (fun e => e.get_descriptor_set.isNone)) = false := by
  decide

/-- C5 amended: once populated, a shape's resources are never re-created by
the recording pass — a successful element pass relates input to output
shapes by `RecordRel`: the descriptor set is unchanged, a shape that
already had a vertex buffer is returned completely unchanged, and a shape
without one gets a buffer holding exactly its vertex list.  The vertex
buffer is thus populated lazily by the first recording pass, while the
descriptor set is populated eagerly by `init` before the first recording
pass: after `init`, every stored element already carries a binding. -/
theorem C5_resource_lifecycle :
    (∀ (alloc : Nat) (es : List (Shape F))
        (v : Nat × List (Shape F) × List (Command F)),
        recordElements alloc es = some v →
        List.Forall₂ RecordRel es v.2.1) ∧
    (∀ (es : List (Shape F)) (n : Nat) (s : Vulkan F),
        Vulkan.init es n = some s →
        ∀ e ∈ s.elements, e.get_descriptor_set.isSome) := by
  refine ⟨?_, ?_⟩
  · intro alloc es v h
    exact (recordElements_some_char alloc es v h).2.2.2
  · intro es n s h
    simp only [Vulkan.init] at h
    cases hg : get_command_buffers (attachDescriptorSets 0 es).1 n
        (attachDescriptorSets 0 es).2 with
    | none => rw [hg] at h; cases h
    | some v =>
      rw [hg] at h
      simp only [Option.pure_def, Option.bind_eq_bind, Option.some_bind] at h
      cases h
      exact attachDescriptorSets_all_ds 0 es

/-- C5 amended, witness: one triangle carrying a binding and no buffer is
related by `RecordRel` to its recorded version; `init` on the empty list
yields a state all of whose elements carry bindings. -/
theorem C5_resource_lifecycle_witness :
    List.Forall₂ (RecordRel (F := Nat))
      [Shape.Triangle ⟨[], (0, 0, 0, 0), some ⟨5, (0, 0, 0, 0)⟩, none⟩]
      [Shape.Triangle ⟨[], (0, 0, 0, 0), some ⟨5, (0, 0, 0, 0)⟩, some ⟨0, []⟩⟩] ∧
    (∀ e ∈ (⟨[none], 0, [], [⟨[Command.beginRenderPass 2,
        Command.bindPipelineGraphics, Command.endRenderPass]⟩], 1, 0⟩ :
          Vulkan Nat).elements,
      e.get_descriptor_set.isSome) :=
  ⟨(C5_resource_lifecycle (F := Nat)).1 0
      [Shape.Triangle ⟨[], (0, 0, 0, 0), some ⟨5, (0, 0, 0, 0)⟩, none⟩]
      (1, [Shape.Triangle ⟨[], (0, 0, 0, 0), some ⟨5, (0, 0, 0, 0)⟩, some ⟨0, []⟩⟩],
        [Command.bindDescriptorSets 0 ⟨5, (0, 0, 0, 0)⟩,
          Command.bindVertexBuffers 0 ⟨0, []⟩, Command.draw 0 1 0 0])
      (by decide),
    (C5_resource_lifecycle (F := Nat)).2 [] 1
      ⟨[none], 0, [], [⟨[Command.beginRenderPass 2, Command.bindPipelineGraphics,
        Command.endRenderPass]⟩], 1, 0⟩ (by decide)⟩

/-- C6: the lazy vertex-buffer attachment path is idempotent.  First
conjunct: over one whole recording pass with `n + 1` framebuffers, the
allocator grows by exactly the number of shapes that initially lacked a
vertex buffer — independent of the framebuffer count, so each shape's
buffer is allocated at most once (during the first framebuffer iteration
where it is absent) and every later iteration reuses the already-attached
buffer.  Second conjunct: running the element pass again on its own output
allocates nothing and changes nothing (attach is a no-op once populated). -/
theorem C6_lazy_attach_idempotent :
    (∀ (alloc n : Nat) (es : List (Shape F))
        (v : Nat × List (Shape F) × List (CommandBuffer F)),
        get_command_buffers alloc (n + 1) es = some v →
        v.1 = alloc + elementsAlloc es) ∧
    (∀ (alloc : Nat) (es : List (Shape F))
        (v : Nat × List (Shape F) × List (Command F)),
        recordElements alloc es = some v →
        recordElements v.1 v.2.1 = some (v.1, v.2.1, v.2.2)) := by
  refine ⟨?_, ?_⟩
  · intro alloc n es v h
    exact get_command_buffers_succ_alloc alloc n es v h
  · intro alloc es v h
    obtain ⟨h1, h2, h3, h4⟩ := recordElements_some_char alloc es v h
    rw [recordElements_of_materialized v.1 v.2.1
      (fun x hx => (h3 x hx).1) (fun x hx => (h3 x hx).2), h2]

/-- C6 witness: one shape with a binding and no buffer, two framebuffers:
the allocator grows by exactly 1; re-running the element pass on its output
is the identity. -/
theorem C6_lazy_attach_idempotent_witness :
    (1, [Shape.Triangle (⟨[], (0, 0, 0, 0), some ⟨5, (0, 0, 0, 0)⟩, some ⟨0, []⟩⟩ :
        Triangle Nat)],
      [(⟨[Command.beginRenderPass 2, Command.bindPipelineGraphics,
          Command.bindDescriptorSets 0 ⟨5, (0, 0, 0, 0)⟩,
          Command.bindVertexBuffers 0 ⟨0, []⟩, Command.draw 0 1 0 0,
          Command.endRenderPass]⟩ : CommandBuffer Nat),
        ⟨[Command.beginRenderPass 2, Command.bindPipelineGraphics,
          Command.bindDescriptorSets 0 ⟨5, (0, 0, 0, 0)⟩,
          Command.bindVertexBuffers 0 ⟨0, []⟩, Command.draw 0 1 0 0,
          Command.endRenderPass]⟩]).1 =
      0 + elementsAlloc [Shape.Triangle (⟨[], (0, 0, 0, 0),
        some ⟨5, (0, 0, 0, 0)⟩, none⟩ : Triangle Nat)] ∧
    recordElements 1
        [Shape.Triangle (⟨[], (0, 0, 0, 0), some ⟨5, (0, 0, 0, 0)⟩, some ⟨0, []⟩⟩ :
          Triangle Nat)] =
      some (1, [Shape.Triangle ⟨[], (0, 0, 0, 0), some ⟨5, (0, 0, 0, 0)⟩, some ⟨0, []⟩⟩],
        [Command.bindDescriptorSets 0 ⟨5, (0, 0, 0, 0)⟩,
          Command.bindVertexBuffers 0 ⟨0, []⟩, Command.draw 0 1 0 0]) :=
  ⟨(C6_lazy_attach_idempotent (F := Nat)).1 0 1
      [Shape.Triangle ⟨[], (0, 0, 0, 0), some ⟨5, (0, 0, 0, 0)⟩, none⟩] _ (by decide),
    (C6_lazy_attach_idempotent (F := Nat)).2 0
      [Shape.Triangle ⟨[], (0, 0, 0, 0), some ⟨5, (0, 0, 0, 0)⟩, none⟩]
      (1, [Shape.Triangle ⟨[], (0, 0, 0, 0), some ⟨5, (0, 0, 0, 0)⟩, some ⟨0, []⟩⟩],
        [Command.bindDescriptorSets 0 ⟨5, (0, 0, 0, 0)⟩,
          Command.bindVertexBuffers 0 ⟨0, []⟩, Command.draw 0 1 0 0])
      (by decide)⟩

/-- C7: recording over an N-framebuffer swapchain (N ≥ 1, every shape
carrying its binding, as `init` guarantees) produces exactly one submission
per framebuffer; every submission's command list is `framebufferCommands`
of the final element list: begin render pass, bind pipeline, then for each
shape in registration order its `shapeCommands` — bind that shape's binding
at set index 0, bind its vertex buffer at slot 0, and one non-indexed draw
of `vertex_buffer.len` vertices with instance count 1 — then end the pass.
The final element list corresponds pointwise, in order, to the input
shapes, with descriptor sets and vertex lists unchanged. -/
theorem C7_command_recording (alloc n : Nat) (es : List (Shape F))
    (hds : ∀ e ∈ es, e.get_descriptor_set.isSome) (hn : 1 ≤ n) :
    ∃ es1, get_command_buffers alloc n es =
        some (alloc + elementsAlloc es, es1,
          List.replicate n ⟨framebufferCommands es1⟩) ∧
      (List.replicate n (⟨framebufferCommands es1⟩ : CommandBuffer F)).length = n ∧
      (∀ e1 ∈ es1, ∃ ds vb, e1.get_descriptor_set = some ds ∧
        e1.get_vertex_buffer = some vb ∧
        shapeCommands e1 = [Command.bindDescriptorSets 0 ds,
          Command.bindVertexBuffers 0 vb, Command.draw vb.len 1 0 0]) ∧
      List.Forall₂ (fun e e1 => e1.get_descriptor_set = e.get_descriptor_set ∧
        e1.get_vertices = e.get_vertices) es es1 := by
  obtain ⟨es1, hg, hrel⟩ := get_command_buffers_char alloc n es hds hn
  obtain ⟨h1, h2⟩ := forall₂_record_isSome hrel hds
  refine ⟨es1, hg, by simp, ?_, ?_⟩
  · intro e1 he1
    obtain ⟨ds, hd⟩ := Option.isSome_iff_exists.mp (h1 e1 he1)
    obtain ⟨vb, hv⟩ := Option.isSome_iff_exists.mp (h2 e1 he1)
    exact ⟨ds, vb, hd, hv, shapeCommands_eq e1 ds vb hd hv⟩
  · exact List.Forall₂.imp (fun a b h => ⟨h.1, h.2.1⟩) hrel

/-- C7 witness: one bound triangle over a 2-image swapchain. -/
theorem C7_command_recording_witness :
    ∃ es1, get_command_buffers 0 2
        [Shape.Triangle (⟨[], (0, 0, 0, 0), some ⟨5, (0, 0, 0, 0)⟩, none⟩ :
          Triangle Nat)] =
        some (0 + elementsAlloc [Shape.Triangle (⟨[], (0, 0, 0, 0),
            some ⟨5, (0, 0, 0, 0)⟩, none⟩ : Triangle Nat)], es1,
          List.replicate 2 ⟨framebufferCommands es1⟩) ∧
      (List.replicate 2 (⟨framebufferCommands es1⟩ : CommandBuffer Nat)).length = 2 ∧
      (∀ e1 ∈ es1, ∃ ds vb, e1.get_descriptor_set = some ds ∧
        e1.get_vertex_buffer = some vb ∧
        shapeCommands e1 = [Command.bindDescriptorSets 0 ds,
          Command.bindVertexBuffers 0 vb, Command.draw vb.len 1 0 0]) ∧
      List.Forall₂ (fun e e1 => e1.get_descriptor_set = e.get_descriptor_set ∧
        e1.get_vertices = e.get_vertices)
        [Shape.Triangle (⟨[], (0, 0, 0, 0), some ⟨5, (0, 0, 0, 0)⟩, none⟩ :
          Triangle Nat)] es1 :=
  C7_command_recording 0 2
    [Shape.Triangle ⟨[], (0, 0, 0, 0), some ⟨5, (0, 0, 0, 0)⟩, none⟩]
    (by decide) (by decide)

/-- C10: the recording pass unconditionally unwraps each shape's descriptor
set: with at least one framebuffer it panics (`none`) as soon as any shape
lacks a binding; when every shape has a binding it succeeds.  `initialize`
establishes that precondition by eagerly attaching a descriptor set to
every element (its attach loop output all carries bindings), and the
recording pass itself never creates descriptor sets (it preserves each
shape's binding unchanged). -/
theorem C10_descriptor_set_precondition :
    (∀ (alloc n : Nat) (es : List (Shape F)), 1 ≤ n →
        (∃ e ∈ es, e.get_descriptor_set = none) →
        get_command_buffers alloc n es = none) ∧
    (∀ (alloc n : Nat) (es : List (Shape F)),
        (∀ e ∈ es, e.get_descriptor_set.isSome) →
        (get_command_buffers alloc n es).isSome) ∧
    (∀ (alloc : Nat) (es : List (Shape F)),
        ∀ e1 ∈ (attachDescriptorSets alloc es).2, e1.get_descriptor_set.isSome) ∧
    (∀ (alloc : Nat) (e : Shape F) (w : Nat × Shape F × List (Command F)),
        recordShape alloc e = some w →
        w.2.1.get_descriptor_set = e.get_descriptor_set) := by
  refine ⟨?_, ?_, ?_, ?_⟩
  · intro alloc n es hn h
    exact get_command_buffers_of_none_ds alloc n es h hn
  · intro alloc n es h
    cases n with
    | zero => rw [get_command_buffers_zero]; rfl
    | succ m =>
      obtain ⟨es1, hg, -⟩ := get_command_buffers_char alloc (m + 1) es h (by omega)
      rw [hg]
      rfl
  · exact attachDescriptorSets_all_ds
  · intro alloc e w h
    exact (recordShape_some_char alloc e w h).2.2.2.1

/-- C10 witness: a bindingless triangle makes a 1-framebuffer recording
pass panic; a bound triangle records successfully; the attach loop and the
per-shape recording step behave as stated on concrete shapes. -/
theorem C10_descriptor_set_precondition_witness :
    get_command_buffers 0 1
        [Shape.new_triangle ([] : List (SimpleVertex Nat)) (0, 0, 0, 0)] = none ∧
    (get_command_buffers 0 1
        [Shape.Triangle (⟨[], (0, 0, 0, 0), some ⟨5, (0, 0, 0, 0)⟩, none⟩ :
          Triangle Nat)]).isSome ∧
    (∀ e1 ∈ (attachDescriptorSets 0
        [Shape.new_triangle ([] : List (SimpleVertex Nat)) (0, 0, 0, 0)]).2,
      e1.get_descriptor_set.isSome) ∧
    (1, Shape.Triangle (⟨[], (0, 0, 0, 0), some ⟨5, (0, 0, 0, 0)⟩, some ⟨0, []⟩⟩ :
        Triangle Nat),
      [Command.bindDescriptorSets 0 ⟨5, (0, 0, 0, 0)⟩,
        Command.bindVertexBuffers 0 ⟨0, []⟩,
        Command.draw 0 1 0 0]).2.1.get_descriptor_set =
      (Shape.Triangle (⟨[], (0, 0, 0, 0), some ⟨5, (0, 0, 0, 0)⟩, none⟩ :
        Triangle Nat)).get_descriptor_set :=
  ⟨(C10_descriptor_set_precondition (F := Nat)).1 0 1
      [Shape.new_triangle [] (0, 0, 0, 0)] (by decide)
      ⟨Shape.new_triangle [] (0, 0, 0, 0), by decide, by decide⟩,
    (C10_descriptor_set_precondition (F := Nat)).2.1 0 1
      [Shape.Triangle ⟨[], (0, 0, 0, 0), some ⟨5, (0, 0, 0, 0)⟩, none⟩]
      (by decide),
    (C10_descriptor_set_precondition (F := Nat)).2.2.1 0
      [Shape.new_triangle [] (0, 0, 0, 0)],
    (C10_descriptor_set_precondition (F := Nat)).2.2.2 0
      (Shape.Triangle ⟨[], (0, 0, 0, 0), some ⟨5, (0, 0, 0, 0)⟩, none⟩)
      (1, Shape.Triangle ⟨[], (0, 0, 0, 0), some ⟨5, (0, 0, 0, 0)⟩, some ⟨0, []⟩⟩,
        [Command.bindDescriptorSets 0 ⟨5, (0, 0, 0, 0)⟩,
          Command.bindVertexBuffers 0 ⟨0, []⟩, Command.draw 0 1 0 0])
      (by decide)⟩

end VulkanWinit
